import Mathlib

/-
  Verification of the OilLibrary property-estimation engine against its
  natural-language specification.

  The development shallowly embeds the estimation code of
  `oil_library/imported_record/estimations.py` and `oil_library/init_oil.py`
  (plus the record-normalisation code shared with
  `oil_library/utilities/json_record.py`).  Python floats are modelled by ℚ
  (by ℝ where the code applies logarithms), Python `None` by `Option`,
  raised exceptions by `Except PyErr`.  The module
  `oil_library/utilities/estimations.py` (the leaf correlation formulas,
  imported as `est`) is not part of the sources; the formulas the
  specification pins down are modelled from the spec, the remaining ones are
  taken as parameters (structure `EstLib`), so that every theorem holds for
  any choice of the missing correlations.
-/

namespace OilLib

/-- Python exceptions that the embedded code can raise. -/
inductive PyErr where
  | valueError
  | indexError
  | typeError
  | attributeError
  deriving DecidableEq, Repr

/-- A raw measurement sub-object (Density / KVis / DVis row) as stored on an
imported record: the measured value (`kg_m_3` / `m_2_s` / `kg_ms` depending
on the series), the reference temperature and the weathering, any of which
may be null. -/
structure Meas where
  value : Option ℚ
  ref_temp_k : Option ℚ
  weathering : Option ℚ
  deriving DecidableEq, Repr

/-- A culled measurement: value and reference temperature are known to be
non-null and weathering has been defaulted to 0.0. -/
structure CMeas where
  value : ℚ
  ref_temp_k : ℚ
  weathering : ℚ
  deriving DecidableEq, Repr

/-- A distillation cut row (`vapor_temp_k`, `fraction`). -/
structure CutRec where
  vapor_temp_k : ℚ
  fraction : ℚ
  deriving DecidableEq, Repr

/-- A `KVis` object as constructed by `aggregate_kvis`.  Modelled from the
spec: `models.py` is absent from the sources; per the spec's data model,
"Weathering defaults to 0.0 when absent", so a `KVis` built without a
weathering argument carries weathering 0.0. -/
structure KVisOut where
  m_2_s : ℚ
  ref_temp_k : ℚ
  weathering : ℚ
  deriving DecidableEq, Repr

/-- The fields of an `ImportedRecord` that the estimation engine reads. -/
structure ImportedRecord where
  adios_oil_id : Option String
  oil_name : Option String
  product_type : Option String
  api : Option ℚ
  pour_point_min_k : Option ℚ
  pour_point_max_k : Option ℚ
  flash_point_min_k : Option ℚ
  flash_point_max_k : Option ℚ
  resins : Option ℚ
  asphaltenes : Option ℚ
  sulphur : Option ℚ
  adhesion : Option ℚ
  nickel : Option ℚ
  vanadium : Option ℚ
  emuls_constant_max : Option ℚ
  k0y : Option ℚ
  densities : List Meas
  kvis : List Meas
  dvis : List Meas
  cuts : List CutRec
  deriving DecidableEq, Repr

/-- Modelled from the spec: the correlation formulas of the absent module
`oil_library/utilities/estimations.py` that the spec does not pin down
numerically (viscosity-temperature relation, pour point from viscosity,
resin/asphaltene fraction correlations).  They are kept as parameters; all
theorems below hold for every choice of them. -/
structure EstLib where
  kvis_at_temp : ℚ → ℚ → ℚ → ℚ
  pour_point_from_kvis : ℚ → ℚ → ℚ
  resin_fraction : ℚ → ℚ → ℚ
  asphaltene_fraction : ℚ → ℚ → ℚ → ℚ

/-- A trivial instantiation of the missing correlations, used to state
closed counterexamples (whose truth never depends on the instantiation). -/
def zeroEstLib : EstLib where
  kvis_at_temp := fun _ _ _ => 0
  pour_point_from_kvis := fun _ _ => 0
  resin_fraction := fun _ _ => 0
  asphaltene_fraction := fun _ _ _ => 0

/-- Modelled from the spec: `est.density_from_api` — density at 288.15 K via
the standard API↔specific-gravity correlation (glossary: inverse relation to
specific gravity; SG = 141.5/(131.5+API), water at 1000 kg/m³). -/
def density_from_api (api : ℚ) : ℚ × ℚ :=
  (141.5 / (131.5 + api) * 1000, 288.15)

/-- Modelled from the spec: `est.api_from_density`, the inverse of
`density_from_api`. -/
def api_from_density (density : ℚ) : ℚ :=
  141.5 * 1000 / density - 131.5

/-- Modelled from the spec: `est.dvis_to_kvis` — a dynamic viscosity is
converted by dividing by the density at the reference temperature. -/
def dvis_to_kvis (kg_ms density : ℚ) : ℚ :=
  kg_ms / density

/-- Modelled from the spec: `est.density_at_temp`, the linear-expansion
correlation ρ(T) = ρ_ref / (1 + k·(T − T_ref)). -/
def est_density_at_temp (ref_density ref_temp_k temp_k k_rho_t : ℚ) : ℚ :=
  ref_density / (1 + k_rho_t * (temp_k - ref_temp_k))

/-- Modelled from the spec: `est.vol_expansion_coeff` — the expansion
coefficient derived from two bounding measurements, i.e. the k solving
ρ₁ = ρ₀ / (1 + k·(t₁ − t₀)).  (Division by zero yields 0 in ℚ, matching a
guarded implementation for coincident reference points.) -/
def vol_expansion_coeff (rho_0 t_0 rho_1 t_1 : ℚ) : ℚ :=
  (rho_0 - rho_1) / (rho_1 * (t_1 - t_0))

/-- Retention test of `culled_measurement`: the measured value and the
reference temperature are non-null. -/
def retainedMeas (o : Meas) : Bool :=
  o.value.isSome && o.ref_temp_k.isSome

/-- The in-place weathering defaulting performed by `culled_measurement` on
each retained measurement: a null weathering becomes 0.0. -/
def defaultWeathering (o : Meas) : Meas :=
  if o.weathering = none then { o with weathering := some 0 } else o

/-- The state effect of `culled_measurement` on a measurement list: every
retained measurement has its weathering defaulted in place; the discarded
ones are untouched. -/
def culledListState (l : List Meas) : List Meas :=
  l.map (fun o => if retainedMeas o then defaultWeathering o else o)

/-- The value returned by `culled_measurement`: the retained measurements,
after the weathering defaulting, projected to their non-null fields. -/
def culledVals (l : List Meas) : List CMeas :=
  (l.filter retainedMeas).map
    (fun o => ⟨o.value.getD 0, o.ref_temp_k.getD 0, o.weathering.getD 0⟩)

/-- `culled_densities` paired with its state effect on the record. -/
def culled_densities_state (rec : ImportedRecord) : ImportedRecord × List CMeas :=
  ({ rec with densities := culledListState rec.densities }, culledVals rec.densities)

/-- `culled_kvis` paired with its state effect on the record. -/
def culled_kvis_state (rec : ImportedRecord) : ImportedRecord × List CMeas :=
  ({ rec with kvis := culledListState rec.kvis }, culledVals rec.kvis)

/-- `culled_dvis` paired with its state effect on the record. -/
def culled_dvis_state (rec : ImportedRecord) : ImportedRecord × List CMeas :=
  ({ rec with dvis := culledListState rec.dvis }, culledVals rec.dvis)

/-- The list of culled densities of a record (value level). -/
def culled_densities (rec : ImportedRecord) : List CMeas :=
  culledVals rec.densities

/-- The list of culled kinematic viscosities of a record (value level). -/
def culled_kvis (rec : ImportedRecord) : List CMeas :=
  culledVals rec.kvis

/-- The list of culled dynamic viscosities of a record (value level). -/
def culled_dvis (rec : ImportedRecord) : List CMeas :=
  culledVals rec.dvis

/-- Comparison by reference temperature, the key of Python's
`sorted(..., key=lambda d: d.ref_temp_k)`. -/
def cmLe (a b : CMeas) : Prop :=
  a.ref_temp_k ≤ b.ref_temp_k

instance : DecidableRel cmLe := fun a b => by
  unfold cmLe; infer_instance

instance : IsTotal CMeas cmLe :=
  ⟨fun a b => le_total a.ref_temp_k b.ref_temp_k⟩

instance : IsTrans CMeas cmLe :=
  ⟨fun _ _ _ h1 h2 => le_trans h1 h2⟩

/-- The density point synthesised by `get_densities` from the API. -/
def synth_density_point (api : ℚ) : CMeas :=
  ⟨(density_from_api api).1, (density_from_api api).2, 0⟩

/-- `get_densities`: the culled densities at the requested weathering, plus
one density point synthesised from the API when the weathering is 0, the
API is known, and no culled density at this weathering sits at 288.15 K;
sorted by reference temperature. -/
def get_densities (rec : ImportedRecord) (weathering : ℚ) : List CMeas :=
  let densities := (culled_densities rec).filter (fun d => d.weathering = weathering)
  let densities :=
    if weathering = 0 ∧ rec.api.isSome ∧
        (densities.filter (fun d => d.ref_temp_k = 288.15)).length = 0 then
      match rec.api with
      | some api => densities ++ [synth_density_point api]
      | none => densities
    else densities
  densities.insertionSort cmLe

/-- `culled_cuts`: walk the raw cut list, discarding every cut whose vapor
temperature or fraction decreases from the previously retained cut
(starting from 0.0 for both). -/
def culledCutsGo (prev_temp prev_fraction : ℚ) : List CutRec → List CutRec
  | [] => []
  | c :: cs =>
      if c.vapor_temp_k < prev_temp then culledCutsGo prev_temp prev_fraction cs
      else if c.fraction < prev_fraction then culledCutsGo prev_temp prev_fraction cs
      else c :: culledCutsGo c.vapor_temp_k c.fraction cs

/-- `culled_cuts` on a record. -/
def culled_cuts (rec : ImportedRecord) : List CutRec :=
  culledCutsGo 0 0 rec.cuts

/-- The claim's reading of `culled_cuts`: a cut is kept exactly when both
its vapor temperature and its cumulative fraction are greater than or equal
to the corresponding values of the previously retained cut, the initial
reference values being 0.0. -/
def culledCutsClaimGo (prev_temp prev_fraction : ℚ) : List CutRec → List CutRec
  | [] => []
  | c :: cs =>
      if prev_temp ≤ c.vapor_temp_k ∧ prev_fraction ≤ c.fraction then
        c :: culledCutsClaimGo c.vapor_temp_k c.fraction cs
      else culledCutsClaimGo prev_temp prev_fraction cs

/-- Junk element returned by out-of-range list indexing inside
`bounding_temperatures` (the indices are provably in range whenever the
input list is non-empty). -/
def cmeas0 : CMeas := ⟨0, 0, 0⟩

/-- `high_and_oob` of `bounding_temperatures`: the target is ≥ every
reference temperature. -/
def bHigh (obj_list : List CMeas) (temperature : ℚ) : Bool :=
  obj_list.all (fun o => temperature ≥ o.ref_temp_k)

/-- `low_and_oob` of `bounding_temperatures`: the target is < every
reference temperature. -/
def bLow (obj_list : List CMeas) (temperature : ℚ) : Bool :=
  obj_list.all (fun o => ¬ temperature ≥ o.ref_temp_k)

/-- `np.argmin(geq_temps)` of `bounding_temperatures`: the first index
whose entry fails `temperature ≥ T_j`, or 0 when every entry passes. -/
def bArgmin (obj_list : List CMeas) (temperature : ℚ) : Nat :=
  let k := obj_list.findIdx (fun o => ¬ temperature ≥ o.ref_temp_k)
  if k = obj_list.length then 0 else k

/-- `rho_idxs0` of `bounding_temperatures` (scalar case): the argmin,
decremented when positive, overridden to `len − 1` when the target is out
of bounds above. -/
def bIdx0 (obj_list : List CMeas) (temperature : ℚ) : Nat :=
  if bHigh obj_list temperature then obj_list.length - 1
  else if bArgmin obj_list temperature > 0 then bArgmin obj_list temperature - 1
  else bArgmin obj_list temperature

/-- `rho_idxs1` of `bounding_temperatures` (scalar case):
`min(rho_idxs0 + 1, len − 1)`, overridden to 0 when the target is out of
bounds below. -/
def bIdx1 (obj_list : List CMeas) (temperature : ℚ) : Nat :=
  if bLow obj_list temperature then 0
  else min (bIdx0 obj_list temperature + 1) (obj_list.length - 1)

/-- `bounding_temperatures` for a scalar target temperature.  A list with
at most one element is returned duplicated (`[obj_list * 2]`), which for
the empty list leaves no pair at all. -/
def bounding_temperatures (obj_list : List CMeas) (temperature : ℚ) :
    List (CMeas × CMeas) :=
  if obj_list.length ≤ 1 then
    match obj_list with
    | [] => []
    | o :: _ => [(o, o)]
  else
    [(obj_list.getD (bIdx0 obj_list temperature) cmeas0,
      obj_list.getD (bIdx1 obj_list temperature) cmeas0)]

/-- `_get_reference_densities` for a scalar temperature: the lower bounding
measurement is the reference, unless the temperature exceeds both bounds,
in which case the upper one is used; an empty density list makes the numpy
column indexing fail. -/
def get_reference_densities (densities : List CMeas) (temperature : ℚ) :
    Except PyErr (ℚ × ℚ) :=
  match bounding_temperatures densities temperature with
  | [] => .error .indexError
  | (lo, hi) :: _ =>
      if temperature > lo.ref_temp_k ∧ temperature > hi.ref_temp_k then
        .ok (hi.value, hi.ref_temp_k)
      else
        .ok (lo.value, lo.ref_temp_k)

/-- Python-2 comparison `record.api > 30` where the API may be `None`
(`None` compares below every number in Python 2). -/
def pyGtOpt (o : Option ℚ) (c : ℚ) : Bool :=
  match o with
  | none => false
  | some a => a > c

/-- `_vol_expansion_coeff` for a scalar temperature: the coefficient derived
from the bounding pair, replaced by the API-dependent default when the
temperature falls strictly outside both bounds. -/
def vol_expansion_coeff_at (rec : ImportedRecord) (densities : List CMeas)
    (temperature : ℚ) : Except PyErr ℚ :=
  match bounding_temperatures densities temperature with
  | [] => .error .typeError
  | (lo, hi) :: _ =>
      let k := vol_expansion_coeff lo.value lo.ref_temp_k hi.value hi.ref_temp_k
      let gt := temperature > lo.ref_temp_k ∧ temperature > hi.ref_temp_k
      let lt := temperature < lo.ref_temp_k ∧ temperature < hi.ref_temp_k
      let k_default : ℚ := if pyGtOpt rec.api 30 then 0.0009 else 0.0008
      .ok (if gt ∨ lt then k_default else k)

/-- Insert-or-replace into a Python dict modelled as an association list
with unique keys. -/
def pyDictInsert {κ β : Type} [DecidableEq κ] (acc : List (κ × β))
    (p : κ × β) : List (κ × β) :=
  if acc.any (fun q => q.1 = p.1) then
    acc.map (fun q => if q.1 = p.1 then p else q)
  else acc ++ [p]

/-- `dict(pairs)`: later pairs overwrite earlier ones with the same key. -/
def pyDict {κ β : Type} [DecidableEq κ] (l : List (κ × β)) : List (κ × β) :=
  l.foldl pyDictInsert []

/-- `d.update(pairs)` on a dict `d`. -/
def pyDictUpdate {κ β : Type} [DecidableEq κ] (d : List (κ × β))
    (l : List (κ × β)) : List (κ × β) :=
  l.foldl pyDictInsert d

/-- Python's lexicographic comparison of (weathering, temperature) keys, as
used by `sorted(non_redundant_keys)`. -/
def keyLe (p q : (ℚ × ℚ) × ℚ) : Prop :=
  p.1.1 < q.1.1 ∨ (p.1.1 = q.1.1 ∧ p.1.2 ≤ q.1.2)

instance : DecidableRel keyLe := fun p q => by
  unfold keyLe; infer_instance

instance : IsTotal ((ℚ × ℚ) × ℚ) keyLe := by
  constructor
  intro a b
  rcases lt_trichotomy a.1.1 b.1.1 with h | h | h
  · exact Or.inl (Or.inl h)
  · rcases le_total a.1.2 b.1.2 with h2 | h2
    · exact Or.inl (Or.inr ⟨h, h2⟩)
    · exact Or.inr (Or.inr ⟨h.symm, h2⟩)
  · exact Or.inr (Or.inl h)

instance : IsTrans ((ℚ × ℚ) × ℚ) keyLe := by
  constructor
  intro a b c h1 h2
  rcases h1 with h1 | ⟨h1e, h1le⟩ <;> rcases h2 with h2 | ⟨h2e, h2le⟩
  · exact Or.inl (h1.trans h2)
  · exact Or.inl (h2e ▸ h1)
  · exact Or.inl (h1e ▸ h2)
  · exact Or.inr ⟨h1e.trans h2e, h1le.trans h2le⟩

/-- `non_redundant_dvis`: the culled dynamic-viscosity entries whose
(weathering, reference-temperature) key is not carried by any culled
kinematic-viscosity entry, yielded in ascending key order as `DVis`
objects. -/
def non_redundant_dvis (rec : ImportedRecord) : List CMeas :=
  let kvis_dict := pyDict ((culled_kvis rec).map
    (fun k => ((k.weathering, k.ref_temp_k), k.value)))
  let dvis_dict := pyDict ((culled_dvis rec).map
    (fun d => ((d.weathering, d.ref_temp_k), d.value)))
  let non_redundant := dvis_dict.filter
    (fun p => ¬ kvis_dict.any (fun q => q.1 = p.1))
  let sorted := non_redundant.insertionSort keyLe
  sorted.map (fun p => ⟨p.2, p.1.2, p.1.1⟩)

/-- Sort order used on the `(ref_temp_k, (m_2_s, estimated))` items of
`aggregate_kvis`: Python tuple comparison. -/
def itemsLe (x y : ℚ × ℚ × Bool) : Prop :=
  x.1 < y.1 ∨ (x.1 = y.1 ∧ (x.2.1 < y.2.1 ∨ (x.2.1 = y.2.1 ∧ x.2.2 ≤ y.2.2)))

instance : DecidableRel itemsLe := fun x y => by
  unfold itemsLe; infer_instance

instance : IsTotal (ℚ × ℚ × Bool) itemsLe := by
  constructor
  intro a b
  rcases lt_trichotomy a.1 b.1 with h | h | h
  · exact Or.inl (Or.inl h)
  · rcases lt_trichotomy a.2.1 b.2.1 with h2 | h2 | h2
    · exact Or.inl (Or.inr ⟨h, Or.inl h2⟩)
    · rcases le_total a.2.2 b.2.2 with h3 | h3
      · exact Or.inl (Or.inr ⟨h, Or.inr ⟨h2, h3⟩⟩)
      · exact Or.inr (Or.inr ⟨h.symm, Or.inr ⟨h2.symm, h3⟩⟩)
    · exact Or.inr (Or.inr ⟨h.symm, Or.inl h2⟩)
  · exact Or.inr (Or.inl h)

instance : IsTrans (ℚ × ℚ × Bool) itemsLe := by
  constructor
  intro a b c h1 h2
  rcases h1 with h1 | ⟨h1e, h1r⟩
  · rcases h2 with h2 | ⟨h2e, _⟩
    · exact Or.inl (h1.trans h2)
    · exact Or.inl (h2e ▸ h1)
  · rcases h2 with h2 | ⟨h2e, h2r⟩
    · exact Or.inl (h1e ▸ h2)
    · refine Or.inr ⟨h1e.trans h2e, ?_⟩
      rcases h1r with h1r | ⟨h1re, h1rb⟩
      · rcases h2r with h2r | ⟨h2re, _⟩
        · exact Or.inl (h1r.trans h2r)
        · exact Or.inl (h2re ▸ h1r)
      · rcases h2r with h2r | ⟨h2re, h2rb⟩
        · exact Or.inl (h1re ▸ h2r)
        · exact Or.inr ⟨h1re.trans h2re, h1rb.trans h2rb⟩

/-- The kinematic-viscosity side of `aggregate_kvis`'s merge. -/
def kvisPairs (rec : ImportedRecord) : List (ℚ × ℚ × Bool) :=
  (culled_kvis rec).map (fun k => (k.ref_temp_k, k.value, false))

/-- `aggregate_kvis` restricted to records with no raw dvis entries (the
dvis-derived side of the merge is empty, so no density lookup happens).
Used to break the `density_at_temp` → `pour_point` → `aggregate_kvis` call
cycle: `density_at_temp` reaches `pour_point`'s estimation branch only when
the record has no pour-point data and no dvis entries (otherwise `min_temp`
is set to 0.0 without calling `pour_point`, or `pour_point` returns the
recorded values), and `aggregate_kvis_items_eq_no_dvis` below shows the two
definitions agree on such records. -/
def aggregate_kvis_items_no_dvis (rec : ImportedRecord) :
    Except PyErr (List (ℚ × ℚ × Bool)) :=
  let agg := pyDictUpdate (pyDict []) (kvisPairs rec)
  let out := agg.insertionSort itemsLe
  if out.isEmpty then .error .valueError else .ok out

/-- Comparison of `KVis` objects by reference temperature. -/
def kvLe (a b : KVisOut) : Prop :=
  a.ref_temp_k ≤ b.ref_temp_k

instance : DecidableRel kvLe := fun a b => by
  unfold kvLe; infer_instance

/-- `lowest_temperature`: the first element after sorting by reference
temperature. -/
def lowest_temperature (obj_list : List KVisOut) : Option KVisOut :=
  (obj_list.insertionSort kvLe).head?

/-- `pour_point`: recorded bounds if either is present, else an estimate
from the lowest-temperature aggregated kinematic viscosity (see
`aggregate_kvis_items_no_dvis` for why the aggregation needs no dvis
entries on every path that reaches this branch). -/
def pour_point (lib : EstLib) (rec : ImportedRecord) :
    Except PyErr (Option ℚ × Option ℚ × Bool) :=
  if rec.pour_point_min_k.isSome ∨ rec.pour_point_max_k.isSome then
    .ok (rec.pour_point_min_k, rec.pour_point_max_k, false)
  else do
    let items ← aggregate_kvis_items_no_dvis rec
    let kvis_out := items.map (fun i => (⟨i.2.1, i.1, 0⟩ : KVisOut))
    match lowest_temperature kvis_out with
    | none => .error .attributeError
    | some lowest =>
        .ok (none, some (lib.pour_point_from_kvis lowest.m_2_s lowest.ref_temp_k),
             true)

/-- `density_at_temp` for a scalar query temperature. -/
def density_at_temp (lib : EstLib) (rec : ImportedRecord)
    (temperature : ℚ) (weathering : ℚ) : Except PyErr ℚ := do
  let densities := get_densities rec weathering
  let min_temp ←
    if rec.pour_point_min_k = none ∧ rec.pour_point_max_k = none ∧
        rec.dvis ≠ [] then
      pure (0 : ℚ)
    else do
      let pp ← pour_point lib rec
      let vals := densities.map (fun d => d.ref_temp_k) ++
        ([pp.1, pp.2.1].filterMap id)
      match vals.min? with
      | none => .error .valueError
      | some m => pure m
  let temperature := if temperature < min_temp then min_temp else temperature
  let rd ← get_reference_densities densities temperature
  let k ← vol_expansion_coeff_at rec densities temperature
  pure (est_density_at_temp rd.1 rd.2 temperature k)

/-- `get_api`: the recorded API, or the API implied by the density at
15 °C when any density exists, or `None`. -/
def get_api (lib : EstLib) (rec : ImportedRecord) : Except PyErr (Option ℚ) :=
  match rec.api with
  | some a => .ok (some a)
  | none =>
      if (get_densities rec 0).length > 0 then do
        let d ← density_at_temp lib rec (273.15 + 15) 0
        .ok (some (api_from_density d))
      else .ok none

/-- The dvis-derived side of `aggregate_kvis`'s merge: each non-redundant
dynamic viscosity divided by the density at its reference temperature,
flagged as estimated. -/
def dvis_derived_pairs (lib : EstLib) (rec : ImportedRecord) :
    List CMeas → Except PyErr (List (ℚ × ℚ × Bool))
  | [] => .ok []
  | d :: ds => do
      let rho ← density_at_temp lib rec d.ref_temp_k 0
      let rest ← dvis_derived_pairs lib rec ds
      .ok ((d.ref_temp_k, dvis_to_kvis d.value rho, true) :: rest)

/-- The merge of `aggregate_kvis`, producing the sorted
`(ref_temp_k, (m_2_s, estimated))` items: the dict of dvis-derived entries
(keyed by reference temperature alone) updated with the direct kvis
entries, sorted; an empty merge makes the final tuple unpacking fail. -/
def aggregate_kvis_items (lib : EstLib) (rec : ImportedRecord) :
    Except PyErr (List (ℚ × ℚ × Bool)) := do
  let dvis_list ← dvis_derived_pairs lib rec (non_redundant_dvis rec)
  let agg := pyDictUpdate (pyDict dvis_list) (kvisPairs rec)
  let out := agg.insertionSort itemsLe
  if out.isEmpty then .error .valueError else .ok out

lemma aggregate_kvis_items_eq_no_dvis (lib : EstLib) (rec : ImportedRecord)
    (h : rec.dvis = []) :
    aggregate_kvis_items lib rec = aggregate_kvis_items_no_dvis rec := by
  have h1 : non_redundant_dvis rec = [] := by
    unfold non_redundant_dvis culled_dvis
    rw [h]
    rfl
  unfold aggregate_kvis_items aggregate_kvis_items_no_dvis
  rw [h1]
  rfl

/-- `aggregate_kvis`: the aggregated `KVis` objects paired with their
`estimated` flags. -/
def aggregate_kvis (lib : EstLib) (rec : ImportedRecord) :
    Except PyErr (List KVisOut × List Bool) := do
  let out ← aggregate_kvis_items lib rec
  .ok (out.map (fun i => (⟨i.2.1, i.1, 0⟩ : KVisOut)), out.map (fun i => i.2.2))

/-- `closest_to_temperature` for a scalar temperature and `num = 1`: a list
of at most one element is returned as is; otherwise the element whose
reference temperature is nearest the target (numpy's introselect does not
specify the tie-break; the first such element is taken). -/
def closest_to_temperature (obj_list : List KVisOut) (temperature : ℚ) :
    List KVisOut :=
  if obj_list.length ≤ 1 then obj_list
  else
    match obj_list.argmin (fun o => |o.ref_temp_k - temperature|) with
    | none => []
    | some o => [o]

/-- `kvis_at_temp` for a scalar query temperature: filter the aggregated
series to the requested weathering and evaluate the viscosity-temperature
correlation at the closest entry.  Indexing `[0]` into the result of
`closest_to_temperature` raises `IndexError` when the filtered series is
empty, so the `return None` branch of the source is unreachable. -/
def kvis_at_temp (lib : EstLib) (rec : ImportedRecord)
    (temp_k : ℚ) (weathering : ℚ) : Except PyErr ℚ := do
  let agg ← aggregate_kvis lib rec
  let kvis_list := agg.1.filter (fun kv => kv.weathering = weathering)
  match closest_to_temperature kvis_list temp_k with
  | [] => .error .indexError
  | closest_kvis :: _ =>
      pure (lib.kvis_at_temp closest_kvis.m_2_s closest_kvis.ref_temp_k temp_k)

/-- Python tuple unpacking `a, b = t` of a runtime sequence. -/
def pyUnpack2 {α : Type} (l : List α) : Except PyErr (α × α) :=
  match l with
  | [a, b] => .ok (a, b)
  | _ => .error .valueError

/-- Python tuple unpacking `a, b, c = t` of a runtime sequence. -/
def pyUnpack3 {α : Type} (l : List α) : Except PyErr (α × α × α) :=
  match l with
  | [a, b, c] => .ok (a, b, c)
  | _ => .error .valueError

/-- `inert_fractions`: the measured resins/asphaltenes fractions when both
are present, otherwise the missing ones are estimated from the density and
viscosity at 288.15 K.  The returned tuple is modelled as a list to keep
its runtime arity (it has exactly two components). -/
def inert_fractions (lib : EstLib) (rec : ImportedRecord) :
    Except PyErr (List ℚ) :=
  match rec.resins, rec.asphaltenes with
  | some f_res, some f_asph => .ok [f_res, f_asph]
  | f_res, f_asph => do
      let density ← density_at_temp lib rec 288.15 0
      let viscosity ← kvis_at_temp lib rec 288.15 0
      let f_res := f_res.getD (lib.resin_fraction density viscosity)
      let f_asph := f_asph.getD (lib.asphaltene_fraction density viscosity f_res)
      .ok [f_res, f_asph]

/-- Python-2 comparison `x < c` where `x` may be `None` (`None` compares
below every number in Python 2). -/
def pyLtOpt (o : Option ℚ) (c : ℚ) : Bool :=
  match o with
  | none => true
  | some a => a < c

/-- The asphaltene-fraction correlation of `_adios2_bullwinkle_fraction`
together with its clip to [0, 0.303]. -/
noncomputable def bull_from_asph (f_asph : ℝ) : ℝ :=
  min (max (0.20219 - 0.168 * Real.logb 10 f_asph) 0) 0.303

/-- The API correlation of the final branch of
`_adios2_bullwinkle_fraction`. -/
noncomputable def bull_from_api (oil_api : ℝ) : ℝ :=
  -1.038 - 0.78935 * Real.logb 10 (1 / oil_api)

/-- The `bull_adios1` value of `_adios2_new_bull_calc`: the independently
computed "new bull calc" estimate derived from the API (the ADIOS 1
boiling point over the evaporation rate, clipped to [0, 0.4]). -/
noncomputable def bull_adios1_value (oil_api : ℝ) : ℝ :=
  let t_g := 1356.7 - 247.36 * Real.log oil_api
  let t_bp := 532.98 - 3.1295 * oil_api
  min (max ((483.0 - t_bp) / t_g) 0) 0.4

/-- `_adios2_new_bull_calc`: the 50/50 scale-average of the primary
estimate with the "new bull calc" value. -/
noncomputable def adios2_new_bull_calc (oil_api bullwinkle_fraction : ℝ) : ℝ :=
  0.5 * (bullwinkle_fraction + bull_adios1_value oil_api)

/-- The API correlation of the crude branch of
`_adios2_bullwinkle_fraction` (the api < 26 / api > 50 clamps around
`bull_from_api`), for a present API. -/
noncomputable def bull_api_correlation (oil_api : ℝ) : ℝ :=
  if oil_api < 26 then 0.08
  else if oil_api > 50 then 0.303
  else bull_from_api oil_api

/-- `_adios2_bullwinkle_fraction` (the body of `bullwinkle_fraction`):
1.0 for a "Refined" product; the measured `emuls_constant_max` when
present; otherwise an estimate (0 when nickel and vanadium are both
positive with sum above 15, else from the asphaltene fraction when
positive, else from the API), corrected by `_adios2_new_bull_calc`.
An absent API reaches `np.log(None)` inside the correction and raises. -/
noncomputable def adios2_bullwinkle_fraction (lib : EstLib)
    (rec : ImportedRecord) : Except PyErr ℝ :=
  if rec.product_type = some "Refined" then .ok 1
  else match rec.emuls_constant_max with
  | some e => .ok (e : ℝ)
  | none => do
      let Ni : ℚ := rec.nickel.getD 0
      let Va : ℚ := rec.vanadium.getD 0
      let fs ← inert_fractions lib rec
      let fr_fa ← pyUnpack2 fs
      let f_asph := fr_fa.2
      let oil_api ← get_api lib rec
      let est0 : ℝ :=
        if Ni > 0 ∧ Va > 0 ∧ Ni + Va > 15 then 0
        else if f_asph > 0 then bull_from_asph (f_asph : ℝ)
        else if pyLtOpt oil_api 26 then 0.08
        else if pyGtOpt oil_api 50 then 0.303
        else bull_from_api ((oil_api.getD 0 : ℚ) : ℝ)
      match oil_api with
      | none => .error .typeError
      | some a => .ok (adios2_new_bull_calc (a : ℝ) est0)

/-- Python's `str.lower()` on a single character (the strings compared in
the sources are ASCII). -/
def lowerChar (c : Char) : Char :=
  if 'A' ≤ c ∧ c ≤ 'Z' then Char.ofNat (c.toNat + 32) else c

/-- Python's `str.lower()` (ASCII). -/
def pyLower (s : String) : String :=
  ⟨s.data.map lowerChar⟩

/-- `manually_rejected`: the record's adios id is in the (currently
singleton `(None,)`) manual-rejection list. -/
def manually_rejected (rec : ImportedRecord) : Bool :=
  rec.adios_oil_id = none

/-- `has_product_type`: the product type is present and is crude or refined
(case-insensitively). -/
def has_product_type (rec : ImportedRecord) : Bool :=
  match rec.product_type with
  | some pt => pyLower pt = "crude" ∨ pyLower pt = "refined"
  | none => false

/-- `has_api_or_densities`. -/
def has_api_or_densities (rec : ImportedRecord) : Bool :=
  rec.api.isSome ∨ rec.densities.length > 0

/-- `has_viscosities`. -/
def has_viscosities (rec : ImportedRecord) : Bool :=
  rec.kvis.length > 0 ∨ rec.dvis.length > 0

/-- `has_distillation_cuts`: three cuts, except that a crude product may
instead carry an API or a density from which cuts can be synthesised. -/
def has_distillation_cuts (rec : ImportedRecord) : Bool :=
  if rec.product_type.map pyLower = some "crude" then
    rec.cuts.length ≥ 3 ∨ rec.api.isSome ∨ rec.densities.length > 0
  else
    rec.cuts.length ≥ 3

/-- The accumulated reasons of
`reject_imported_record_if_requirements_not_met`, in source order. -/
def rejection_errors (rec : ImportedRecord) : List String :=
  (if manually_rejected rec then ["Imported Record was manually rejected"]
   else []) ++
  (if !has_product_type rec then ["Imported Record has no product type"]
   else []) ++
  (if !has_api_or_densities rec then
    ["Imported Record has no density information"] else []) ++
  (if !has_viscosities rec then
    ["Imported Record has no viscosity information"] else []) ++
  (if !has_distillation_cuts rec then
    ["Imported Record has insufficient cut data"] else [])

/-- `reject_imported_record_if_requirements_not_met`: raises `OilRejected`
with the accumulated error list and the record id when any check failed. -/
def reject_imported_record_if_requirements_not_met (rec : ImportedRecord) :
    Except (List String × Option String) Unit :=
  let errors := rejection_errors rec
  if errors.length > 0 then .error (errors, rec.adios_oil_id) else .ok ()

/-- The fields of the output `Oil` object populated by the stages of
`generate_oil` modelled here. -/
structure OilOut where
  name : Option String
  adios_oil_id : Option String
  densities : List CMeas
  api : Option ℚ
  kvis : List KVisOut
  estimated_viscosities : Bool
  resins_fraction : Option ℚ
  asphaltenes_fraction : Option ℚ
  deriving DecidableEq, Repr

/-- A freshly constructed `Oil()` object. -/
def emptyOil : OilOut := ⟨none, none, [], none, [], false, none, none⟩

/-- `add_demographics`. -/
def add_demographics (rec : ImportedRecord) (oil : OilOut) : OilOut :=
  { oil with name := rec.oil_name, adios_oil_id := rec.adios_oil_id }

/-- `add_densities`: assigns the gathered densities and the API; its
`try/except` swallows any exception after logging. -/
def add_densities (lib : EstLib) (rec : ImportedRecord) (oil : OilOut) :
    OilOut :=
  let oil := { oil with densities := get_densities rec 0 }
  match get_api lib rec with
  | .ok a => { oil with api := a }
  | .error _ => oil

/-- `add_viscosities`: appends the aggregated viscosities and records
whether any of them was estimated (not exception-guarded). -/
def add_viscosities (lib : EstLib) (rec : ImportedRecord) (oil : OilOut) :
    Except PyErr OilOut := do
  let kv ← aggregate_kvis lib rec
  .ok { oil with
          kvis := oil.kvis ++ kv.1,
          estimated_viscosities := oil.estimated_viscosities || kv.2.any id }

/-- `add_inert_fractions`: unpacks
`f_res, f_asph, estimated = imp_rec_obj.inert_fractions()` — a three-name
unpacking of the two-component tuple returned by `inert_fractions`. -/
def add_inert_fractions (lib : EstLib) (rec : ImportedRecord) (oil : OilOut) :
    Except PyErr OilOut := do
  let fs ← inert_fractions lib rec
  let t ← pyUnpack3 fs
  .ok { oil with
          resins_fraction := some t.1,
          asphaltenes_fraction := some t.2.1 }

/-- The stages of `generate_oil` up to and including `add_inert_fractions`
(the later stages are never reached: `add_inert_fractions` raises on every
record, see `generate_oil_crashes_on_inert_unpack`). -/
def generate_oil_until_inert (lib : EstLib) (rec : ImportedRecord) :
    Except PyErr OilOut := do
  let oil := emptyOil
  let oil := add_demographics rec oil
  let oil := add_densities lib rec oil
  let oil ← add_viscosities lib rec oil
  let oil ← add_inert_fractions lib rec oil
  .ok oil

/-- A fully sparse record, the base of the concrete test records below. -/
def baseRecord : ImportedRecord where
  adios_oil_id := some "AD99999"
  oil_name := some "Test Oil"
  product_type := some "Crude"
  api := none
  pour_point_min_k := none
  pour_point_max_k := none
  flash_point_min_k := none
  flash_point_max_k := none
  resins := none
  asphaltenes := none
  sulphur := none
  adhesion := none
  nickel := none
  vanadium := none
  emuls_constant_max := none
  k0y := none
  densities := []
  kvis := []
  dvis := []
  cuts := []

/-- The claim's reading of the `culled_measurement` mutation: a retained
measurement with null weathering gets weathering 0.0, its other attributes
untouched; everything else is untouched. -/
def claimedWeatheringDefault (o : Meas) : Meas :=
  if retainedMeas o ∧ o.weathering = none then ⟨o.value, o.ref_temp_k, some 0⟩
  else o

lemma culledListState_eq_claimed (l : List Meas) :
    culledListState l = l.map claimedWeatheringDefault := by
  unfold culledListState claimedWeatheringDefault defaultWeathering
  refine List.map_congr_left (fun o _ => ?_)
  by_cases hr : retainedMeas o <;> by_cases hw : o.weathering = none <;>
    simp [hr, hw]

/-- C10: `culled_measurement` (hence `culled_densities`, `culled_kvis`,
`culled_dvis`) mutates its record in place exactly by defaulting the null
weathering of each retained measurement to 0.0, leaving every other
attribute of the record and of its measurements unchanged. -/
theorem culled_measurement_mutates_only_retained_weathering
    (rec : ImportedRecord) :
    (culled_densities_state rec).1 =
      { rec with densities := rec.densities.map claimedWeatheringDefault } ∧
    (culled_kvis_state rec).1 =
      { rec with kvis := rec.kvis.map claimedWeatheringDefault } ∧
    (culled_dvis_state rec).1 =
      { rec with dvis := rec.dvis.map claimedWeatheringDefault } ∧
    (culled_densities_state rec).2 = culledVals rec.densities ∧
    (culled_kvis_state rec).2 = culledVals rec.kvis ∧
    (culled_dvis_state rec).2 = culledVals rec.dvis := by
  refine ⟨?_, ?_, ?_, rfl, rfl, rfl⟩ <;>
    simp [culled_densities_state, culled_kvis_state, culled_dvis_state,
      culledListState_eq_claimed]

lemma culledCutsGo_eq_claim (cuts : List CutRec) :
    ∀ prev_temp prev_fraction : ℚ,
      culledCutsGo prev_temp prev_fraction cuts =
        culledCutsClaimGo prev_temp prev_fraction cuts := by
  induction cuts with
  | nil => intro pt pf; rfl
  | cons c cs ih =>
      intro pt pf
      by_cases h1 : c.vapor_temp_k < pt
      · have h2 : ¬ (pt ≤ c.vapor_temp_k ∧ pf ≤ c.fraction) := by
          rintro ⟨hle, -⟩; exact absurd h1 (not_lt.mpr hle)
        simp only [culledCutsGo, culledCutsClaimGo, if_pos h1, if_neg h2]
        exact ih pt pf
      · by_cases h2 : c.fraction < pf
        · have h3 : ¬ (pt ≤ c.vapor_temp_k ∧ pf ≤ c.fraction) := by
            rintro ⟨-, hle⟩; exact absurd h2 (not_lt.mpr hle)
          simp only [culledCutsGo, culledCutsClaimGo, if_neg h1, if_pos h2,
            if_neg h3]
          exact ih pt pf
        · have h3 : pt ≤ c.vapor_temp_k ∧ pf ≤ c.fraction :=
            ⟨not_lt.mp h1, not_lt.mp h2⟩
          simp only [culledCutsGo, culledCutsClaimGo, if_neg h1, if_neg h2,
            if_pos h3]
          rw [ih]

/-- The record of Scenario B: cuts with a decreasing fraction. -/
def recScenarioB : ImportedRecord :=
  { baseRecord with cuts := [⟨310.15, 0.3⟩, ⟨400, 0.2⟩] }

/-- C8: `culled_cuts` yields exactly the cuts whose vapor temperature and
fraction are both ≥ those of the previously retained cut (starting from
0.0/0.0), discarding violators unmodified; on Scenario B's cuts
`[(310.15, 0.3), (400, 0.2)]` exactly the first cut survives. -/
theorem culled_cuts_monotone_filter :
    (∀ rec : ImportedRecord, culled_cuts rec = culledCutsClaimGo 0 0 rec.cuts) ∧
    culled_cuts recScenarioB = [⟨310.15, 0.3⟩] := by
  constructor
  · intro rec
    exact culledCutsGo_eq_claim rec.cuts 0 0
  · norm_num [culled_cuts, recScenarioB, baseRecord, culledCutsGo]

/-- The claim's reading of `get_densities`: the synthetic point is added
exactly when no culled density at the requested weathering exists at all
(rather than none at 288.15 K). -/
def get_densities_claimed (rec : ImportedRecord) (weathering : ℚ) :
    List CMeas :=
  let densities := (culled_densities rec).filter (fun d => d.weathering = weathering)
  if weathering = 0 ∧ rec.api.isSome ∧ densities = [] then
    match rec.api with
    | some api => densities ++ [synth_density_point api]
    | none => densities
  else densities

/-- The amended reading of `get_densities`: the synthetic point is added
exactly when the weathering is 0, the API is known, and no culled density
at this weathering has reference temperature 288.15 K. -/
def get_densities_amended (rec : ImportedRecord) (weathering : ℚ) :
    List CMeas :=
  let densities := (culled_densities rec).filter (fun d => d.weathering = weathering)
  if weathering = 0 ∧ rec.api.isSome ∧
      (∀ d ∈ densities, d.ref_temp_k ≠ 288.15) then
    match rec.api with
    | some api => densities ++ [synth_density_point api]
    | none => densities
  else densities

/-- A record with an API and one density measurement at weathering 0 whose
reference temperature is not 288.15 K. -/
def recC6 : ImportedRecord :=
  { baseRecord with
      api := some 30
      densities := [⟨some 900, some 300, some 0⟩] }

/-- C6 counterexample: `recC6` has a culled density at weathering 0, so by
the claim no synthetic point may be added, yet `get_densities` returns two
points (the claimed output has one); the outputs are not even equal as
multisets. -/
theorem get_densities_claim_false_at_recC6 :
    (get_densities recC6 0).length = 2 ∧
    (get_densities_claimed recC6 0).length = 1 ∧
    ¬ (get_densities recC6 0).Perm (get_densities_claimed recC6 0) := by
  refine ⟨?_, ?_, ?_⟩
  · norm_num [get_densities, recC6, baseRecord, culled_densities, culledVals,
      retainedMeas, List.filter, List.insertionSort, List.orderedInsert,
      synth_density_point, density_from_api, cmLe]
  · norm_num [get_densities_claimed, recC6, baseRecord, culled_densities,
      culledVals, retainedMeas, List.filter]
  · intro hperm
    have h2 : (get_densities recC6 0).length = 2 := by
      norm_num [get_densities, recC6, baseRecord, culled_densities, culledVals,
        retainedMeas, List.filter, List.insertionSort, List.orderedInsert,
        synth_density_point, density_from_api, cmLe]
    have h1 : (get_densities_claimed recC6 0).length = 1 := by
      norm_num [get_densities_claimed, recC6, baseRecord, culled_densities,
        culledVals, retainedMeas, List.filter]
    have := hperm.length_eq
    omega

lemma filter_288_length_zero_iff (l : List CMeas) :
    (l.filter (fun d => d.ref_temp_k = 288.15)).length = 0 ↔
      ∀ d ∈ l, d.ref_temp_k ≠ 288.15 := by
  rw [List.length_eq_zero, List.filter_eq_nil_iff]
  simp

/-- C6 amended: `get_densities` returns, sorted by reference temperature, a
permutation of the culled densities at the requested weathering together
with one API-synthesised point at 288.15 K exactly when the weathering is
0, the API is known and no culled density at this weathering sits at
288.15 K. -/
lemma get_densities_eq_sort_amended (rec : ImportedRecord) (weathering : ℚ) :
    get_densities rec weathering =
      (get_densities_amended rec weathering).insertionSort cmLe := by
  simp only [get_densities, get_densities_amended]
  congr 1
  apply if_congr _ rfl rfl
  constructor
  · rintro ⟨h0, hapi, hlen⟩
    exact ⟨h0, hapi, (filter_288_length_zero_iff _).mp hlen⟩
  · rintro ⟨h0, hapi, hall⟩
    exact ⟨h0, hapi, (filter_288_length_zero_iff _).mpr hall⟩

/-- C6 amended: `get_densities` returns, sorted by reference temperature, a
permutation of the culled densities at the requested weathering together
with one API-synthesised point at 288.15 K exactly when the weathering is
0, the API is known and no culled density at this weathering sits at
288.15 K. -/
theorem get_densities_synthesises_at_28815_gap
    (rec : ImportedRecord) (weathering : ℚ) :
    (get_densities rec weathering).Perm (get_densities_amended rec weathering) ∧
    List.Sorted cmLe (get_densities rec weathering) := by
  rw [get_densities_eq_sort_amended]
  exact ⟨List.perm_insertionSort cmLe _, List.sorted_insertionSort cmLe _⟩

/-- The claim's first listed pre-estimation check: product type absent or
not crude/refined. -/
def claimProductTypeFails (rec : ImportedRecord) : Bool :=
  match rec.product_type with
  | none => true
  | some pt => !(pyLower pt = "crude" || pyLower pt = "refined")

/-- The claim's second listed check: no API and no density measurement. -/
def claimDensityFails (rec : ImportedRecord) : Bool :=
  rec.api = none ∧ rec.densities = []

/-- The claim's third listed check: no kinematic and no dynamic
viscosity. -/
def claimViscosityFails (rec : ImportedRecord) : Bool :=
  rec.kvis = [] ∧ rec.dvis = []

/-- The claim's fourth listed check: fewer than 3 cuts (refined), or fewer
than 3 cuts together with no API and no densities (crude). -/
def claimCutsFails (rec : ImportedRecord) : Bool :=
  if rec.product_type.map pyLower = some "crude" then
    rec.cuts.length < 3 ∧ rec.api = none ∧ rec.densities = []
  else rec.cuts.length < 3

/-- Some check of the claim's list fails. -/
def claimAnyCheckFails (rec : ImportedRecord) : Bool :=
  claimProductTypeFails rec || claimDensityFails rec ||
    claimViscosityFails rec || claimCutsFails rec

/-- The reasons the claim expects the rejection to carry, one per failed
check, in check order (with the manual-rejection check of the amended
claim prepended). -/
def claimed_reasons (rec : ImportedRecord) : List String :=
  (if rec.adios_oil_id = none then ["Imported Record was manually rejected"]
   else []) ++
  (if claimProductTypeFails rec then ["Imported Record has no product type"]
   else []) ++
  (if claimDensityFails rec then
    ["Imported Record has no density information"] else []) ++
  (if claimViscosityFails rec then
    ["Imported Record has no viscosity information"] else []) ++
  (if claimCutsFails rec then
    ["Imported Record has insufficient cut data"] else [])

/-- Errors of `add_oil`: the `OilRejected` exception of the requirement
gate, or a Python exception escaping the estimation stages. -/
inductive AddOilErr where
  | rejected (reasons : List String) (oil_id : Option String)
  | pyerr (e : PyErr)
  deriving DecidableEq, Repr

/-- `add_oil` up to the point the estimation stages reach (see
`generate_oil_until_inert`): the requirement gate runs first, and
estimation runs only when it passes. -/
def add_oil_model (lib : EstLib) (rec : ImportedRecord) :
    Except AddOilErr OilOut :=
  match reject_imported_record_if_requirements_not_met rec with
  | .error (es, oid) => .error (.rejected es oid)
  | .ok () =>
      match generate_oil_until_inert lib rec with
      | .error e => .error (.pyerr e)
      | .ok oil => .ok oil

lemma claimProductTypeFails_eq (rec : ImportedRecord) :
    claimProductTypeFails rec = !has_product_type rec := by
  unfold claimProductTypeFails has_product_type
  cases rec.product_type <;> simp

lemma claimDensityFails_eq (rec : ImportedRecord) :
    claimDensityFails rec = !has_api_or_densities rec := by
  unfold claimDensityFails has_api_or_densities
  cases hapi : rec.api <;>
    cases hd : rec.densities <;>
      simp [hapi, hd, Option.isSome]

lemma claimViscosityFails_eq (rec : ImportedRecord) :
    claimViscosityFails rec = !has_viscosities rec := by
  unfold claimViscosityFails has_viscosities
  cases hk : rec.kvis <;> cases hd : rec.dvis <;> simp [hk, hd]

lemma claimCutsFails_eq (rec : ImportedRecord) :
    claimCutsFails rec = !has_distillation_cuts rec := by
  have hA : (rec.cuts.length < 3) ↔ ¬ (rec.cuts.length ≥ 3) := by omega
  have hB : (rec.api = none) ↔ ¬ rec.api.isSome = true := by
    cases rec.api <;> simp
  have hC : (rec.densities = []) ↔ ¬ (rec.densities.length > 0) := by
    cases rec.densities <;> simp
  unfold claimCutsFails has_distillation_cuts
  by_cases hpt : rec.product_type.map pyLower = some "crude"
  · rw [if_pos hpt, if_pos hpt, Bool.eq_iff_iff]
    simp only [decide_eq_true_eq, Bool.not_eq_true', decide_eq_false_iff_not]
    rw [hA, hB, hC]
    tauto
  · rw [if_neg hpt, if_neg hpt, Bool.eq_iff_iff]
    simp only [decide_eq_true_eq, Bool.not_eq_true', decide_eq_false_iff_not]
    omega

lemma claimed_reasons_eq (rec : ImportedRecord) :
    claimed_reasons rec = rejection_errors rec := by
  unfold claimed_reasons rejection_errors manually_rejected
  rw [claimProductTypeFails_eq, claimDensityFails_eq, claimViscosityFails_eq,
    claimCutsFails_eq]
  simp

/-- C2 amended: the gate raises iff the manual-rejection check (adios id
absent) or one of the claim's four listed checks fails, and the raised
exception carries the record id together with one reason per failed check
in check order; moreover a record failing the density check is rejected
with the "no density information" reason and estimation never runs. -/
theorem reject_gate_iff_some_check_fails (rec : ImportedRecord) :
    (reject_imported_record_if_requirements_not_met rec =
      (if rec.adios_oil_id = none || claimAnyCheckFails rec then
        .error (claimed_reasons rec, rec.adios_oil_id) else .ok ())) ∧
    (claimDensityFails rec = true →
      "Imported Record has no density information" ∈ claimed_reasons rec ∧
      ∀ lib : EstLib, add_oil_model lib rec =
        .error (.rejected (claimed_reasons rec) rec.adios_oil_id)) := by
  have hlen : (rejection_errors rec).length > 0 ↔
      (rec.adios_oil_id = none || claimAnyCheckFails rec) = true := by
    unfold rejection_errors claimAnyCheckFails manually_rejected
    rw [claimProductTypeFails_eq, claimDensityFails_eq, claimViscosityFails_eq,
      claimCutsFails_eq]
    cases hm : decide (rec.adios_oil_id = none) <;>
      cases h1 : has_product_type rec <;>
        cases h2 : has_api_or_densities rec <;>
          cases h3 : has_viscosities rec <;>
            cases h4 : has_distillation_cuts rec <;>
              simp_all
  constructor
  · unfold reject_imported_record_if_requirements_not_met
    by_cases hc : (rec.adios_oil_id = none || claimAnyCheckFails rec) = true
    · rw [if_pos (hlen.mpr hc), if_pos hc, claimed_reasons_eq]
    · rw [if_neg (fun h => hc (hlen.mp h)), if_neg hc]
  · intro hdf
    have hmem : "Imported Record has no density information" ∈
        claimed_reasons rec := by
      unfold claimed_reasons
      rw [hdf]
      simp
    refine ⟨hmem, fun lib => ?_⟩
    have hany : (rec.adios_oil_id = none || claimAnyCheckFails rec) = true := by
      unfold claimAnyCheckFails
      rw [hdf]
      simp
    unfold add_oil_model reject_imported_record_if_requirements_not_met
    rw [if_pos (hlen.mpr hany), claimed_reasons_eq]

/-- The record of Scenario D: no API and no densities, but measured
resins/asphaltenes and a kinematic viscosity. -/
def recScenarioD : ImportedRecord :=
  { baseRecord with
      resins := some (12/100)
      asphaltenes := some (2/100)
      kvis := [⟨some (1/100000), some 288.15, some 0⟩] }

/-- C2 witness (Scenario D): the record with resins/asphaltenes and kvis
but no API and no densities is rejected with the no-density reason, and
estimation is skipped. -/
theorem reject_gate_iff_some_check_fails_witness :
    "Imported Record has no density information" ∈ claimed_reasons recScenarioD ∧
    add_oil_model zeroEstLib recScenarioD =
      .error (.rejected (claimed_reasons recScenarioD)
        recScenarioD.adios_oil_id) := by
  have h := (reject_gate_iff_some_check_fails recScenarioD).2 (by decide)
  exact ⟨h.1, h.2 zeroEstLib⟩

/-- A record that passes all four checks of the claim's list but has a null
adios id. -/
def recC2 : ImportedRecord :=
  { baseRecord with
      adios_oil_id := none
      api := some 30
      kvis := [⟨some (1/100000), some 288.15, some 0⟩]
      cuts := [⟨310, 3/100⟩, ⟨350, 1/10⟩, ⟨400, 2/10⟩] }

/-- C2 counterexample: every check of the claim's list passes on `recC2`,
yet the gate raises (with the manual-rejection reason), so the gate does
not raise *only if* one of the claim's listed checks fails. -/
theorem reject_gate_claim_false_at_recC2 :
    claimAnyCheckFails recC2 = false ∧
    reject_imported_record_if_requirements_not_met recC2 =
      .error (["Imported Record was manually rejected"], none) := by
  constructor
  · decide
  · rfl

/-- A record whose aggregated kinematic-viscosity series lives entirely at
weathering 0.0. -/
def recC7 : ImportedRecord :=
  { baseRecord with kvis := [⟨some (1/100000), some 288.15, some 0⟩] }

/-- C7: for every record whose aggregated kinematic-viscosity series has
no entry at the queried weathering state, `kvis_at_temp` raises
`IndexError` (from `closest_to_temperature(...)[0]` on the empty filtered
list) instead of returning `None`, for every query temperature and every
instantiation of the missing correlations. -/
theorem kvis_at_temp_raises_on_missing_weathering (lib : EstLib)
    (rec : ImportedRecord) (temp_k w : ℚ) (out : List KVisOut × List Bool)
    (hagg : aggregate_kvis lib rec = .ok out)
    (hfilter : out.1.filter (fun kv => kv.weathering = w) = []) :
    kvis_at_temp lib rec temp_k w = .error .indexError := by
  unfold kvis_at_temp
  rw [hagg]
  simp only [bind, Except.bind, hfilter, closest_to_temperature]
  simp [closest_to_temperature]

/-- C7 witness: `recC7` carries kinematic viscosities only at weathering
0.0, and the query at weathering 0.2 raises `IndexError`. -/
theorem kvis_at_temp_raises_on_missing_weathering_witness :
    kvis_at_temp zeroEstLib recC7 310 (2/10) = .error .indexError :=
  kvis_at_temp_raises_on_missing_weathering zeroEstLib recC7 310 (2/10)
    ([⟨1/100000, 288.15, 0⟩], [false]) rfl (by norm_num [List.filter])

/-- A record passing the rejection gate, with measured resins and
asphaltenes. -/
def recC9 : ImportedRecord :=
  { baseRecord with
      api := some 30
      resins := some (1/10)
      asphaltenes := some (1/20)
      kvis := [⟨some (1/100000), some 288.15, some 0⟩]
      cuts := [⟨310, 3/100⟩, ⟨350, 1/10⟩, ⟨400, 2/10⟩] }

/-- C9: `generate_oil` raises `ValueError` on `recC9` (for every
instantiation of the missing correlations): `add_inert_fractions` unpacks
three names from the two-component tuple returned by `inert_fractions`,
so the pipeline never produces an output record. -/
theorem generate_oil_crashes_on_inert_unpack (lib : EstLib) :
    generate_oil_until_inert lib recC9 = .error .valueError := rfl

/-- The (weathering, reference-temperature) keys the claim expects the
aggregated series to cover: those of the direct kinematic measurements and
those of the non-redundant dvis-derived entries. -/
def aggregate_kvis_claimed_keys (rec : ImportedRecord) : List (ℚ × ℚ) :=
  (culled_kvis rec).map (fun k => (k.weathering, k.ref_temp_k)) ++
    (non_redundant_dvis rec).map (fun d => (d.weathering, d.ref_temp_k))

/-- A record with a kvis measurement at (weathering 0, 300 K) and a dvis
measurement at (weathering 1, 300 K). -/
def recC4 : ImportedRecord :=
  { baseRecord with
      kvis := [⟨some (1/100000), some 300, some 0⟩]
      dvis := [⟨some (1/50), some 300, some 1⟩]
      densities := [⟨some 900, some 280, some 0⟩, ⟨some 880, some 320, some 0⟩] }

/-- C4 counterexample: on `recC4` the claim's key set has the two distinct
(weathering, temperature) keys (0, 300) and (1, 300) — the dvis entry
survives the set-difference since its weathering differs — yet
`aggregate_kvis` keys its merge by temperature alone, so the dvis-derived
entry is overwritten and a single entry remains. -/
theorem aggregate_kvis_claim_false_at_recC4 :
    aggregate_kvis_claimed_keys recC4 = [(0, 300), (1, 300)] ∧
    aggregate_kvis_items zeroEstLib recC4 = .ok [(300, 1/100000, false)] := by
  exact ⟨rfl, rfl⟩

section PyDictLemmas

variable {κ β : Type} [DecidableEq κ]

lemma mem_pyDictInsert {acc : List (κ × β)} {p x : κ × β}
    (hx : x ∈ pyDictInsert acc p) : x ∈ acc ∨ x = p := by
  unfold pyDictInsert at hx
  split at hx
  · rcases List.mem_map.mp hx with ⟨q, hq, hfq⟩
    by_cases hqp : q.1 = p.1
    · right; rw [if_pos hqp] at hfq; exact hfq.symm
    · left; rw [if_neg hqp] at hfq; exact hfq ▸ hq
  · rcases List.mem_append.mp hx with h | h
    · exact Or.inl h
    · exact Or.inr (List.mem_singleton.mp h)

lemma entry_at_new_key_pyDictInsert {acc : List (κ × β)} {p x : κ × β}
    (hx : x ∈ pyDictInsert acc p) (hk : x.1 = p.1) : x = p := by
  unfold pyDictInsert at hx
  split at hx
  · rcases List.mem_map.mp hx with ⟨q, hq, hfq⟩
    by_cases hqp : q.1 = p.1
    · rw [if_pos hqp] at hfq; exact hfq.symm
    · rw [if_neg hqp] at hfq
      exact absurd (hfq ▸ hk) hqp
  · next hany =>
      rcases List.mem_append.mp hx with h | h
      · exact absurd (List.any_eq_true.mpr ⟨x, h, decide_eq_true hk⟩) hany
      · exact List.mem_singleton.mp h

lemma mem_of_pyDictInsert_of_ne {acc : List (κ × β)} {p x : κ × β}
    (hx : x ∈ pyDictInsert acc p) (hk : x.1 ≠ p.1) : x ∈ acc := by
  rcases mem_pyDictInsert hx with h | h
  · exact h
  · exact absurd (h ▸ rfl) hk

lemma keys_pyDictInsert (acc : List (κ × β)) (p : κ × β) :
    (pyDictInsert acc p).map Prod.fst =
      if acc.any (fun q => q.1 = p.1) then acc.map Prod.fst
      else acc.map Prod.fst ++ [p.1] := by
  unfold pyDictInsert
  split
  · rw [List.map_map]
    refine List.map_congr_left (fun q _ => ?_)
    by_cases hqp : q.1 = p.1
    · simp [hqp]
    · simp [hqp]
  · simp

lemma key_mem_pyDictInsert {acc : List (κ × β)} {p : κ × β} {k : κ} :
    k ∈ (pyDictInsert acc p).map Prod.fst ↔
      k ∈ acc.map Prod.fst ∨ k = p.1 := by
  rw [keys_pyDictInsert]
  split
  · next hany =>
      constructor
      · exact Or.inl
      · rintro (h | rfl)
        · exact h
        · rcases List.any_eq_true.mp hany with ⟨q, hq, hqp⟩
          exact List.mem_map.mpr ⟨q, hq, of_decide_eq_true hqp⟩
  · simp

lemma nodup_keys_pyDictInsert {acc : List (κ × β)} {p : κ × β}
    (h : (acc.map Prod.fst).Nodup) :
    ((pyDictInsert acc p).map Prod.fst).Nodup := by
  rw [keys_pyDictInsert]
  split
  · exact h
  · next hany =>
      rw [List.nodup_append]
      refine ⟨h, List.nodup_singleton _, ?_⟩
      intro k hk hk1
      rcases List.mem_map.mp hk with ⟨q, hq, hqk⟩
      rw [List.mem_singleton.mp hk1] at hqk
      exact absurd (List.any_eq_true.mpr ⟨q, hq, decide_eq_true hqk⟩) hany

lemma mem_pyDictUpdate {l : List (κ × β)} :
    ∀ {d : List (κ × β)} {x : κ × β},
      x ∈ pyDictUpdate d l → x ∈ d ∨ x ∈ l := by
  induction l with
  | nil => intro d x hx; exact Or.inl hx
  | cons p ls ih =>
      intro d x hx
      rcases ih (d := pyDictInsert d p) hx with h | h
      · rcases mem_pyDictInsert h with h2 | h2
        · exact Or.inl h2
        · exact Or.inr (h2 ▸ List.mem_cons_self p ls)
      · exact Or.inr (List.mem_cons_of_mem p h)

lemma key_mem_pyDictUpdate {l : List (κ × β)} :
    ∀ {d : List (κ × β)} {k : κ},
      k ∈ (pyDictUpdate d l).map Prod.fst ↔
        k ∈ d.map Prod.fst ∨ k ∈ l.map Prod.fst := by
  induction l with
  | nil => intro d k; simp [pyDictUpdate]
  | cons p ls ih =>
      intro d k
      constructor
      · intro hk
        rcases (ih (d := pyDictInsert d p)).mp hk with h | h
        · rcases key_mem_pyDictInsert.mp h with h2 | h2
          · exact Or.inl h2
          · exact Or.inr (by simp [h2])
        · exact Or.inr (by simp [h])
      · intro hk
        apply (ih (d := pyDictInsert d p)).mpr
        rcases hk with h | h
        · exact Or.inl (key_mem_pyDictInsert.mpr (Or.inl h))
        · rcases List.mem_map.mp h with ⟨q, hq, hqk⟩
          rcases List.mem_cons.mp hq with rfl | hq2
          · exact Or.inl (key_mem_pyDictInsert.mpr (Or.inr hqk.symm))
          · exact Or.inr (List.mem_map.mpr ⟨q, hq2, hqk⟩)

lemma nodup_keys_pyDictUpdate {l : List (κ × β)} :
    ∀ {d : List (κ × β)}, (d.map Prod.fst).Nodup →
      ((pyDictUpdate d l).map Prod.fst).Nodup := by
  induction l with
  | nil => intro d h; exact h
  | cons p ls ih =>
      intro d h
      exact ih (nodup_keys_pyDictInsert h)

lemma mem_of_pyDictUpdate_of_key_not_mem {l : List (κ × β)} :
    ∀ {d : List (κ × β)} {x : κ × β},
      x ∈ pyDictUpdate d l → x.1 ∉ l.map Prod.fst → x ∈ d := by
  induction l with
  | nil => intro d x hx _; exact hx
  | cons p ls ih =>
      intro d x hx hk
      have hk1 : x.1 ≠ p.1 := fun h => hk (by simp [h])
      have hk2 : x.1 ∉ ls.map Prod.fst := fun h => hk (by simp [h])
      exact mem_of_pyDictInsert_of_ne (ih hx hk2) hk1

lemma mem_right_of_pyDictUpdate_of_key_mem {l : List (κ × β)} :
    ∀ {d : List (κ × β)} {x : κ × β},
      x ∈ pyDictUpdate d l → x.1 ∈ l.map Prod.fst → x ∈ l := by
  induction l with
  | nil => intro d x _ hk; simp at hk
  | cons p ls ih =>
      intro d x hx hk
      by_cases hk2 : x.1 ∈ ls.map Prod.fst
      · exact List.mem_cons_of_mem p (ih hx hk2)
      · have hk1 : x.1 = p.1 := by
          rcases List.mem_map.mp hk with ⟨q, hq, hqk⟩
          rcases List.mem_cons.mp hq with rfl | hq2
          · exact hqk.symm
          · exact absurd (List.mem_map.mpr ⟨q, hq2, hqk⟩) hk2
        have hxd : x ∈ pyDictInsert d p :=
          mem_of_pyDictUpdate_of_key_not_mem hx hk2
        exact (entry_at_new_key_pyDictInsert hxd hk1) ▸
          List.mem_cons_self p ls

lemma length_filter_key_le_one {l : List (κ × β)}
    (h : (l.map Prod.fst).Nodup) (t : κ) :
    (l.filter (fun i => i.1 = t)).length ≤ 1 := by
  induction l with
  | nil => simp
  | cons a as ih =>
      rw [List.map_cons, List.nodup_cons] at h
      by_cases hat : a.1 = t
      · have hnil : as.filter (fun i => i.1 = t) = [] := by
          rw [List.filter_eq_nil_iff]
          intro x hx hxt
          exact h.1 (hat ▸ (of_decide_eq_true hxt) ▸
            List.mem_map.mpr ⟨x, hx, rfl⟩)
        simp [List.filter_cons, hat, hnil]
      · simp only [List.filter_cons, decide_eq_true_eq, if_neg hat]
        exact ih h.2

end PyDictLemmas

lemma dvis_derived_pairs_shape {lib : EstLib} {rec : ImportedRecord} :
    ∀ {ds : List CMeas} {dl : List (ℚ × ℚ × Bool)},
      dvis_derived_pairs lib rec ds = .ok dl →
        dl.map Prod.fst = ds.map (fun d => d.ref_temp_k) ∧
        ∀ x ∈ dl, x.2.2 = true := by
  intro ds
  induction ds with
  | nil =>
      intro dl h
      cases h
      exact ⟨rfl, by simp⟩
  | cons d ds ih =>
      intro dl h
      unfold dvis_derived_pairs at h
      cases hrho : density_at_temp lib rec d.ref_temp_k 0 with
      | error e => rw [hrho] at h; exact absurd h (by simp [Except.bind, Bind.bind])
      | ok rho =>
          rw [hrho] at h
          cases hrest : dvis_derived_pairs lib rec ds with
          | error e =>
              rw [hrest] at h
              exact absurd h (by simp [Except.bind, Bind.bind])
          | ok rest =>
              rw [hrest] at h
              simp only [Except.bind, Bind.bind, Except.ok.injEq] at h
              rcases ih hrest with ⟨hkeys, hflags⟩
              subst h
              constructor
              · simp [hkeys]
              · intro x hx
                rcases List.mem_cons.mp hx with rfl | hx2
                · rfl
                · exact hflags x hx2

lemma itemsLe_fst_le {x y : ℚ × ℚ × Bool} (h : itemsLe x y) : x.1 ≤ y.1 := by
  rcases h with h | ⟨h, -⟩
  · exact le_of_lt h
  · exact le_of_eq h

/-- The reference temperatures of the culled kinematic measurements. -/
def kvisTemps (rec : ImportedRecord) : List ℚ :=
  (culled_kvis rec).map (fun k => k.ref_temp_k)

/-- The reference temperatures of the non-redundant dvis entries. -/
def nrDvisTemps (rec : ImportedRecord) : List ℚ :=
  (non_redundant_dvis rec).map (fun d => d.ref_temp_k)

/-- C4 amended: whenever `aggregate_kvis` succeeds, its item list is
non-empty, sorted by reference temperature with pairwise-distinct
reference temperatures (at most one entry per temperature); a temperature
appears exactly when it is carried by a direct kinematic measurement or by
a non-redundant dvis-derived entry (the set-difference on full
(weathering, temperature) keys); and an entry's `estimated` flag is false
exactly when its temperature is carried by a direct kinematic measurement
(direct measurements overwrite dvis-derived entries at equal temperature,
regardless of weathering). -/
theorem aggregate_kvis_merges_by_temperature (lib : EstLib)
    (rec : ImportedRecord) (items : List (ℚ × ℚ × Bool))
    (h : aggregate_kvis_items lib rec = .ok items) :
    items ≠ [] ∧
    List.Sorted itemsLe items ∧
    (items.map Prod.fst).Nodup ∧
    (∀ t : ℚ, (items.filter (fun i => i.1 = t)).length ≤ 1) ∧
    (∀ t : ℚ, t ∈ items.map Prod.fst ↔ t ∈ kvisTemps rec ∨ t ∈ nrDvisTemps rec) ∧
    (∀ i ∈ items, (i.2.2 = false ↔ i.1 ∈ kvisTemps rec)) := by
  unfold aggregate_kvis_items at h
  cases hd : dvis_derived_pairs lib rec (non_redundant_dvis rec) with
  | error e => rw [hd] at h; exact absurd h (by simp [Except.bind, Bind.bind])
  | ok dvis_list =>
      rw [hd] at h
      simp only [Except.bind, Bind.bind] at h
      set agg := pyDictUpdate (pyDict dvis_list) (kvisPairs rec) with hagg
      by_cases hemp : (agg.insertionSort itemsLe).isEmpty
      · rw [if_pos hemp] at h; cases h
      · rw [if_neg hemp] at h
        cases h
        rcases dvis_derived_pairs_shape hd with ⟨hdkeys, hdflags⟩
        have hperm : (agg.insertionSort itemsLe).Perm agg :=
          List.perm_insertionSort itemsLe agg
        have hkvis_keys : (kvisPairs rec).map Prod.fst = kvisTemps rec := by
          unfold kvisPairs kvisTemps
          rw [List.map_map]
          rfl
        have hkvis_flags : ∀ x ∈ kvisPairs rec, x.2.2 = false := by
          unfold kvisPairs
          intro x hx
          rcases List.mem_map.mp hx with ⟨k, -, rfl⟩
          rfl
        have hnodup : (agg.map Prod.fst).Nodup := by
          rw [hagg]
          refine nodup_keys_pyDictUpdate ?_
          refine nodup_keys_pyDictUpdate (l := dvis_list) ?_
          simp [pyDict]
        have hnodup_out : ((agg.insertionSort itemsLe).map Prod.fst).Nodup :=
          ((hperm.map Prod.fst).nodup_iff).mpr hnodup
        refine ⟨?_, List.sorted_insertionSort itemsLe agg, hnodup_out, ?_, ?_, ?_⟩
        · intro hnil
          rw [hnil] at hemp
          exact hemp rfl
        · intro t
          exact length_filter_key_le_one hnodup_out t
        · intro t
          rw [(hperm.map Prod.fst).mem_iff, hagg, key_mem_pyDictUpdate,
            hkvis_keys]
          have hdictkeys : t ∈ (pyDict dvis_list).map Prod.fst ↔
              t ∈ nrDvisTemps rec := by
            rw [show pyDict dvis_list = pyDictUpdate [] dvis_list from rfl,
              key_mem_pyDictUpdate]
            simp [hdkeys, nrDvisTemps]
          rw [hdictkeys]
          tauto
        · intro i hi
          have hi2 : i ∈ agg := hperm.mem_iff.mp hi
          constructor
          · intro hflag
            by_contra hk
            rcases mem_pyDictUpdate hi2 with h2 | h2
            · rw [show pyDict dvis_list = pyDictUpdate [] dvis_list from rfl]
                at h2
              have : i ∈ dvis_list :=
                (mem_pyDictUpdate h2).resolve_left (by simp)
              rw [hdflags i this] at hflag
              cases hflag
            · exact hk (hkvis_keys ▸ List.mem_map.mpr ⟨i, h2, rfl⟩)
          · intro hk
            have : i ∈ kvisPairs rec :=
              mem_right_of_pyDictUpdate_of_key_mem hi2 (hkvis_keys ▸ hk)
            exact hkvis_flags i this

/-- C4 witness: the amended theorem instantiated on `recC4`, whose
aggregation succeeds with the single surviving direct measurement. -/
theorem aggregate_kvis_merges_by_temperature_witness :
    ([((300 : ℚ), (1/100000 : ℚ), false)] : List (ℚ × ℚ × Bool)) ≠ [] ∧
    List.Sorted itemsLe [((300 : ℚ), (1/100000 : ℚ), false)] ∧
    (([((300 : ℚ), (1/100000 : ℚ), false)] : List (ℚ × ℚ × Bool)).map
      Prod.fst).Nodup ∧
    (∀ t : ℚ, (([((300 : ℚ), (1/100000 : ℚ), false)] :
      List (ℚ × ℚ × Bool)).filter (fun i => i.1 = t)).length ≤ 1) ∧
    (∀ t : ℚ, t ∈ (([((300 : ℚ), (1/100000 : ℚ), false)] :
        List (ℚ × ℚ × Bool)).map Prod.fst) ↔
      t ∈ kvisTemps recC4 ∨ t ∈ nrDvisTemps recC4) ∧
    (∀ i ∈ ([((300 : ℚ), (1/100000 : ℚ), false)] : List (ℚ × ℚ × Bool)),
      (i.2.2 = false ↔ i.1 ∈ kvisTemps recC4)) :=
  aggregate_kvis_merges_by_temperature zeroEstLib recC4
    [((300 : ℚ), (1/100000 : ℚ), false)] rfl

/-- The pair returned by `bounding_temperatures` (scalar case). -/
def boundPair (l : List CMeas) (t : ℚ) : CMeas × CMeas :=
  (bounding_temperatures l t).getD 0 (cmeas0, cmeas0)

/-- The claim's description of `bounding_temperatures` at a series `l` and
scalar target `t`: a single-entry series is duplicated; a target above
every reference temperature gives (highest, highest); below every
reference temperature gives (lowest, lowest); otherwise the returned pair
brackets the target. -/
def bounding_claim_holds (l : List CMeas) (t : ℚ) : Prop :=
  (l.length = 1 →
    bounding_temperatures l t = [(l.getD 0 cmeas0, l.getD 0 cmeas0)]) ∧
  ((∀ o ∈ l, o.ref_temp_k < t) →
    (bounding_temperatures l t).length = 1 ∧
    (boundPair l t).1 = (boundPair l t).2 ∧ (boundPair l t).1 ∈ l ∧
    ∀ o ∈ l, o.ref_temp_k ≤ (boundPair l t).1.ref_temp_k) ∧
  ((∀ o ∈ l, t < o.ref_temp_k) →
    (bounding_temperatures l t).length = 1 ∧
    (boundPair l t).1 = (boundPair l t).2 ∧ (boundPair l t).1 ∈ l ∧
    ∀ o ∈ l, (boundPair l t).1.ref_temp_k ≤ o.ref_temp_k) ∧
  ((∃ o ∈ l, o.ref_temp_k ≤ t) → (∃ o ∈ l, t ≤ o.ref_temp_k) →
    (bounding_temperatures l t).length = 1 ∧
    (boundPair l t).1 ∈ l ∧ (boundPair l t).2 ∈ l ∧
    (boundPair l t).1.ref_temp_k ≤ t ∧ t ≤ (boundPair l t).2.ref_temp_k)

instance (l : List CMeas) (t : ℚ) : Decidable (bounding_claim_holds l t) := by
  unfold bounding_claim_holds
  refine @instDecidableAnd _ _ ?_ (@instDecidableAnd _ _ ?_
    (@instDecidableAnd _ _ ?_ ?_)) <;> infer_instance

/-- C5 counterexample: on the (unsorted) series with reference
temperatures [300, 400, 100] and target 200 the code returns the pair
(300, 400), which neither duplicates an extreme nor brackets the target,
so the claim fails for a series that is not sorted by reference
temperature. -/
theorem bounding_temperatures_claim_false_unsorted :
    bounding_temperatures [⟨1, 300, 0⟩, ⟨1, 400, 0⟩, ⟨1, 100, 0⟩] 200 =
      [(⟨1, 300, 0⟩, ⟨1, 400, 0⟩)] ∧
    ¬ bounding_claim_holds [⟨1, 300, 0⟩, ⟨1, 400, 0⟩, ⟨1, 100, 0⟩] 200 := by
  constructor
  · decide
  · decide

lemma sorted_getD_le {l : List CMeas} (hs : List.Sorted cmLe l) {i j : Nat}
    (hij : i ≤ j) (hj : j < l.length) :
    (l.getD i cmeas0).ref_temp_k ≤ (l.getD j cmeas0).ref_temp_k := by
  have hi : i < l.length := Nat.lt_of_le_of_lt hij hj
  rw [List.getD_eq_getElem l cmeas0 hi, List.getD_eq_getElem l cmeas0 hj]
  rcases Nat.eq_or_lt_of_le hij with rfl | hlt
  · exact le_refl _
  · simpa [cmLe] using hs.rel_get_of_lt (a := ⟨i, hi⟩) (b := ⟨j, hj⟩) hlt

lemma mem_ref_le_last {l : List CMeas} (hs : List.Sorted cmLe l) {o : CMeas}
    (ho : o ∈ l) :
    o.ref_temp_k ≤ (l.getD (l.length - 1) cmeas0).ref_temp_k := by
  rcases List.mem_iff_getElem.mp ho with ⟨i, hi, rfl⟩
  rw [← List.getD_eq_getElem l cmeas0 hi]
  exact sorted_getD_le hs (by omega) (by omega)

lemma head_ref_le_mem {l : List CMeas} (hs : List.Sorted cmLe l) {o : CMeas}
    (ho : o ∈ l) :
    (l.getD 0 cmeas0).ref_temp_k ≤ o.ref_temp_k := by
  rcases List.mem_iff_getElem.mp ho with ⟨i, hi, rfl⟩
  rw [← List.getD_eq_getElem l cmeas0 hi]
  exact sorted_getD_le hs (Nat.zero_le i) hi

lemma getD_mem {l : List CMeas} {i : Nat} (h : i < l.length) :
    l.getD i cmeas0 ∈ l := by
  rw [List.getD_eq_getElem l cmeas0 h]
  exact List.getElem_mem h

lemma bHigh_iff {l : List CMeas} {t : ℚ} :
    bHigh l t = true ↔ ∀ o ∈ l, o.ref_temp_k ≤ t := by
  simp [bHigh, List.all_eq_true, ge_iff_le]

lemma bLow_iff {l : List CMeas} {t : ℚ} :
    bLow l t = true ↔ ∀ o ∈ l, t < o.ref_temp_k := by
  simp [bLow, List.all_eq_true, not_le]

lemma bounding_high {l : List CMeas} {t : ℚ} (h2 : 2 ≤ l.length)
    (hh : bHigh l t = true) :
    bounding_temperatures l t =
      [(l.getD (l.length - 1) cmeas0, l.getD (l.length - 1) cmeas0)] := by
  have hne : l ≠ [] := by
    intro h
    rw [h] at h2
    simp at h2
  have hlow : bLow l t = false := by
    rcases List.exists_mem_of_ne_nil l hne with ⟨o, ho⟩
    rcases hl : bLow l t with _ | _
    · rfl
    · exact absurd (bHigh_iff.mp hh o ho)
        (not_le.mpr (bLow_iff.mp hl o ho))
  have hidx0 : bIdx0 l t = l.length - 1 := by
    unfold bIdx0
    rw [if_pos hh]
  have hidx1 : bIdx1 l t = l.length - 1 := by
    unfold bIdx1
    rw [if_neg (by rw [hlow]; exact Bool.false_ne_true), hidx0]
    omega
  unfold bounding_temperatures
  rw [if_neg (by omega), hidx0, hidx1]

lemma bounding_low {l : List CMeas} {t : ℚ} (h2 : 2 ≤ l.length)
    (hl : bLow l t = true) :
    bounding_temperatures l t = [(l.getD 0 cmeas0, l.getD 0 cmeas0)] := by
  have hhigh : bHigh l t = false := by
    have hne : l ≠ [] := by
      intro h
      rw [h] at h2
      simp at h2
    rcases List.exists_mem_of_ne_nil l hne with ⟨o, ho⟩
    rcases hh : bHigh l t with _ | _
    · rfl
    · exact absurd (bHigh_iff.mp hh o ho)
        (not_le.mpr (bLow_iff.mp hl o ho))
  have hk : bArgmin l t = 0 := by
    unfold bArgmin
    rcases hl2 : l with _ | ⟨a, as⟩
    · simp
    · have hpa : decide (¬ t ≥ a.ref_temp_k) = true := by
        simp only [decide_eq_true_eq, not_le, ge_iff_le]
        exact bLow_iff.mp hl a (by rw [hl2]; exact List.mem_cons_self a as)
      rw [List.findIdx_cons, hpa]
      simp
  have hidx0 : bIdx0 l t = 0 := by
    unfold bIdx0
    rw [if_neg (by rw [hhigh]; exact Bool.false_ne_true), hk]
    simp
  have hidx1 : bIdx1 l t = 0 := by
    unfold bIdx1
    rw [if_pos hl]
  unfold bounding_temperatures
  rw [if_neg (by omega), hidx0, hidx1]

lemma bounding_mid {l : List CMeas} {t : ℚ} (h2 : 2 ≤ l.length)
    (hs : List.Sorted cmLe l) (hh : bHigh l t = false)
    (hl : bLow l t = false) :
    ∃ k, 1 ≤ k ∧ k < l.length ∧
      bounding_temperatures l t =
        [(l.getD (k - 1) cmeas0, l.getD k cmeas0)] ∧
      (l.getD (k - 1) cmeas0).ref_temp_k ≤ t ∧
      t < (l.getD k cmeas0).ref_temp_k := by
  set p : CMeas → Bool := fun o => decide (¬ t ≥ o.ref_temp_k) with hp
  set k := l.findIdx p with hkdef
  have hex : ∃ o ∈ l, p o = true := by
    by_contra hcon
    push_neg at hcon
    have : bHigh l t = true := by
      rw [bHigh_iff]
      intro o ho
      have := hcon o ho
      simp only [hp, decide_eq_true_eq, not_le, ge_iff_le] at this
      simpa using this
    rw [this] at hh
    cases hh
  have hklt : k < l.length := List.findIdx_lt_length_of_exists hex
  have hkp : p (l.getD k cmeas0) = true := by
    rw [List.getD_eq_getElem l cmeas0 hklt]
    exact List.findIdx_getElem (w := hklt)
  have hkpos : 1 ≤ k := by
    by_contra hcon
    have hk0 : k = 0 := by omega
    have : bLow l t = true := by
      rw [bLow_iff]
      intro o ho
      have h0 : t < (l.getD 0 cmeas0).ref_temp_k := by
        have := hkp
        rw [hk0] at this
        simpa [hp, not_le] using this
      exact lt_of_lt_of_le h0 (head_ref_le_mem hs ho)
    rw [this] at hl
    cases hl
  have hkprev : p (l.getD (k - 1) cmeas0) = false := by
    rw [List.getD_eq_getElem l cmeas0 (by omega)]
    exact List.not_of_lt_findIdx (by omega)
  refine ⟨k, hkpos, hklt, ?_, ?_, ?_⟩
  · have hargmin : bArgmin l t = k := by
      unfold bArgmin
      rw [← hp, ← hkdef, if_neg (by omega)]
    have hidx0 : bIdx0 l t = k - 1 := by
      unfold bIdx0
      rw [if_neg (by rw [hh]; exact Bool.false_ne_true), hargmin,
        if_pos (by omega)]
    have hidx1 : bIdx1 l t = k := by
      unfold bIdx1
      rw [if_neg (by rw [hl]; exact Bool.false_ne_true), hidx0]
      omega
    unfold bounding_temperatures
    rw [if_neg (by omega), hidx0, hidx1]
  · have := hkprev
    simp only [hp, decide_eq_true_eq, not_le, ge_iff_le,
      decide_eq_false_iff_not, not_lt, not_not] at this
    exact this
  · have := hkp
    simp only [hp, decide_eq_true_eq, not_le, ge_iff_le] at this
    exact this

/-- C5 amended: on every non-empty series *sorted by reference
temperature* and every scalar target, `bounding_temperatures` behaves as
the claim describes: a single entry is duplicated; a target above (below)
every reference temperature yields the highest (lowest) entry duplicated;
otherwise the returned pair brackets the target. -/
theorem bounding_temperatures_brackets_sorted (l : List CMeas) (t : ℚ)
    (hne : l ≠ []) (hs : List.Sorted cmLe l) :
    bounding_claim_holds l t := by
  have hlen : 1 ≤ l.length := by
    rcases l with _ | ⟨a, as⟩
    · exact absurd rfl hne
    · simp
  rcases Nat.lt_or_ge l.length 2 with h1 | h2
  -- single-element series
  · have hlen1 : l.length = 1 := by omega
    rcases l with _ | ⟨a, as⟩
    · exact absurd rfl hne
    · rcases as with _ | ⟨b, bs⟩
      · have hbt : bounding_temperatures [a] t = [(a, a)] := rfl
        have hbp : boundPair [a] t = (a, a) := by
          simp [boundPair, hbt]
        refine ⟨fun _ => hbt, ?_, ?_, ?_⟩
        · intro hall
          rw [hbt, hbp]
          exact ⟨rfl, rfl, List.mem_singleton_self a,
            fun o ho => le_of_eq (congrArg CMeas.ref_temp_k
              (List.mem_singleton.mp ho))⟩
        · intro hall
          rw [hbt, hbp]
          exact ⟨rfl, rfl, List.mem_singleton_self a,
            fun o ho => le_of_eq (congrArg CMeas.ref_temp_k
              (List.mem_singleton.mp ho)).symm⟩
        · rintro ⟨o1, ho1, hle1⟩ ⟨o2, ho2, hle2⟩
          rw [List.mem_singleton] at ho1 ho2
          subst ho1
          subst ho2
          rw [hbt, hbp]
          exact ⟨rfl, List.mem_singleton_self o2, List.mem_singleton_self o2,
            hle1, hle2⟩
      · simp at hlen1
  -- series with at least two elements
  · refine ⟨fun h1len => by omega, ?_, ?_, ?_⟩
    · intro hall
      have hh : bHigh l t = true :=
        bHigh_iff.mpr (fun o ho => le_of_lt (hall o ho))
      have hbt := bounding_high h2 hh
      have hbp : boundPair l t =
          (l.getD (l.length - 1) cmeas0, l.getD (l.length - 1) cmeas0) := by
        simp [boundPair, hbt]
      rw [hbt, hbp]
      exact ⟨rfl, rfl, getD_mem (by omega),
        fun o ho => mem_ref_le_last hs ho⟩
    · intro hall
      have hl2 : bLow l t = true := bLow_iff.mpr hall
      have hbt := bounding_low h2 hl2
      have hbp : boundPair l t = (l.getD 0 cmeas0, l.getD 0 cmeas0) := by
        simp [boundPair, hbt]
      rw [hbt, hbp]
      exact ⟨rfl, rfl, getD_mem (by omega),
        fun o ho => head_ref_le_mem hs ho⟩
    · rintro ⟨o1, ho1, hle1⟩ ⟨o2, ho2, hle2⟩
      rcases hh : bHigh l t with _ | _
      · rcases hl2 : bLow l t with _ | _
        · rcases bounding_mid h2 hs hh hl2 with
            ⟨k, hk1, hklt, hbt, hlo, hhi⟩
          have hbp : boundPair l t =
              (l.getD (k - 1) cmeas0, l.getD k cmeas0) := by
            simp [boundPair, hbt]
          rw [hbt, hbp]
          exact ⟨rfl, getD_mem (by omega), getD_mem hklt, hlo, le_of_lt hhi⟩
        · exact absurd (lt_of_le_of_lt hle1 (bLow_iff.mp hl2 o1 ho1))
            (lt_irrefl _)
      · have hbt := bounding_high h2 hh
        have hbp : boundPair l t =
            (l.getD (l.length - 1) cmeas0, l.getD (l.length - 1) cmeas0) := by
          simp [boundPair, hbt]
        rw [hbt, hbp]
        refine ⟨rfl, getD_mem (by omega), getD_mem (by omega), ?_, ?_⟩
        · exact bHigh_iff.mp hh _ (getD_mem (by omega))
        · exact le_trans hle2 (mem_ref_le_last hs ho2)

/-- C5 witness: the amended theorem applied to a sorted two-element
series, checked in each regime. -/
theorem bounding_temperatures_brackets_sorted_witness :
    bounding_claim_holds [⟨900, 280, 0⟩, ⟨880, 320, 0⟩] 300 ∧
    bounding_claim_holds [⟨900, 280, 0⟩, ⟨880, 320, 0⟩] 100 ∧
    bounding_claim_holds [⟨900, 280, 0⟩, ⟨880, 320, 0⟩] 500 := by
  refine ⟨?_, ?_, ?_⟩ <;>
    exact bounding_temperatures_brackets_sorted _ _ (by decide)
      (by norm_num [List.Sorted, List.pairwise_cons, cmLe])

/-- The claim's reading of `bullwinkle_fraction`: Refined products give
exactly 1.0; a measured `emuls_constant_max` is returned as is; otherwise
the estimate is derived from the asphaltene fraction when positive, else
from the API, and blended 50/50 with the "new bull calc" value. -/
noncomputable def bullwinkle_claimed (rec : ImportedRecord)
    (f_asph oil_api : ℝ) : ℝ :=
  if rec.product_type = some "Refined" then 1
  else match rec.emuls_constant_max with
  | some e => (e : ℝ)
  | none =>
      ((if f_asph > 0 then bull_from_asph f_asph
        else bull_api_correlation oil_api) + bull_adios1_value oil_api) / 2

/-- The amended reading of `bullwinkle_fraction`: as the claim, except
that in the derived branch the primary estimate is 0 whenever nickel and
vanadium are both present-positive with sum above 15 (the estimate is
still blended 50/50 with the "new bull calc" value). -/
noncomputable def bullwinkle_amended (rec : ImportedRecord)
    (f_asph oil_api : ℝ) : ℝ :=
  if rec.product_type = some "Refined" then 1
  else match rec.emuls_constant_max with
  | some e => (e : ℝ)
  | none =>
      ((if (rec.nickel.getD 0 : ℚ) > 0 ∧ (rec.vanadium.getD 0 : ℚ) > 0 ∧
            (rec.nickel.getD 0 : ℚ) + rec.vanadium.getD 0 > 15 then 0
        else if f_asph > 0 then bull_from_asph f_asph
        else bull_api_correlation oil_api) + bull_adios1_value oil_api) / 2

lemma adios2_bullwinkle_fraction_eval (lib : EstLib) (rec : ImportedRecord)
    (fr fa a : ℚ) (hres : rec.resins = some fr)
    (hasph : rec.asphaltenes = some fa) (hapi : rec.api = some a) :
    adios2_bullwinkle_fraction lib rec =
      .ok (bullwinkle_amended rec (fa : ℝ) (a : ℝ)) := by
  unfold adios2_bullwinkle_fraction bullwinkle_amended
  by_cases hpt : rec.product_type = some "Refined"
  · rw [if_pos hpt, if_pos hpt]
  · rw [if_neg hpt, if_neg hpt]
    cases hem : rec.emuls_constant_max with
    | some e => rfl
    | none =>
        have hif : inert_fractions lib rec = .ok [fr, fa] := by
          unfold inert_fractions
          rw [hres, hasph]
        have hga : get_api lib rec = .ok (some a) := by
          unfold get_api
          rw [hapi]
        rw [hif]
        simp only [Except.bind, Bind.bind, pyUnpack2]
        rw [hga]
        simp only [Except.ok.injEq]
        unfold adios2_new_bull_calc
        have hE : (if (rec.nickel.getD 0 : ℚ) > 0 ∧ (rec.vanadium.getD 0 : ℚ) > 0 ∧
              (rec.nickel.getD 0 : ℚ) + rec.vanadium.getD 0 > 15 then (0 : ℝ)
            else if fa > 0 then bull_from_asph (fa : ℝ)
            else if pyLtOpt (some a) 26 then 0.08
            else if pyGtOpt (some a) 50 then 0.303
            else bull_from_api (((some a).getD 0 : ℚ) : ℝ)) =
            (if (rec.nickel.getD 0 : ℚ) > 0 ∧ (rec.vanadium.getD 0 : ℚ) > 0 ∧
              (rec.nickel.getD 0 : ℚ) + rec.vanadium.getD 0 > 15 then (0 : ℝ)
            else if (fa : ℝ) > 0 then bull_from_asph (fa : ℝ)
            else bull_api_correlation (a : ℝ)) := by
          by_cases hni : (rec.nickel.getD 0 : ℚ) > 0 ∧
              (rec.vanadium.getD 0 : ℚ) > 0 ∧
              (rec.nickel.getD 0 : ℚ) + rec.vanadium.getD 0 > 15
          · rw [if_pos hni, if_pos hni]
          · rw [if_neg hni, if_neg hni]
            by_cases hfa : fa > 0
            · have hfa2 : (fa : ℝ) > 0 := by exact_mod_cast hfa
              rw [if_pos hfa, if_pos hfa2]
            · have hfa2 : ¬ (fa : ℝ) > 0 := by exact_mod_cast hfa
              rw [if_neg hfa, if_neg hfa2]
              unfold bull_api_correlation
              simp only [pyLtOpt, pyGtOpt, Option.getD_some]
              by_cases h26 : a < 26
              · have h26r : (a : ℝ) < 26 := by exact_mod_cast h26
                rw [if_pos (decide_eq_true h26), if_pos h26r]
              · have h26r : ¬ (a : ℝ) < 26 := by exact_mod_cast h26
                rw [if_neg (by simpa using h26), if_neg h26r]
                by_cases h50 : a > 50
                · have h50r : (a : ℝ) > 50 := by exact_mod_cast h50
                  rw [if_pos (decide_eq_true h50), if_pos h50r]
                · have h50r : ¬ (a : ℝ) > 50 := by exact_mod_cast h50
                  rw [if_neg (by simpa using h50), if_neg h50r]
        rw [hE]
        ring

/-- C3 amended: on every record `bullwinkle_fraction` returns exactly 1.0
for a "Refined" product type, and the measured emulsification constant
when one is present on a non-refined record, with no condition on any
other field; otherwise, for records with measured resins and asphaltenes
and a recorded API, it returns the 50/50 average with the "new bull calc"
value of the primary estimate, which is 0 when nickel and vanadium are
both positive with sum above 15, else derived from the asphaltene
fraction when positive, else from the API. -/
theorem bullwinkle_two_stage_blend (lib : EstLib) (rec : ImportedRecord) :
    (rec.product_type = some "Refined" →
      adios2_bullwinkle_fraction lib rec = .ok 1) ∧
    (∀ e : ℚ, rec.product_type ≠ some "Refined" →
      rec.emuls_constant_max = some e →
      adios2_bullwinkle_fraction lib rec = .ok (e : ℝ)) ∧
    (∀ fr fa a : ℚ, rec.resins = some fr → rec.asphaltenes = some fa →
      rec.api = some a →
      adios2_bullwinkle_fraction lib rec =
        .ok (bullwinkle_amended rec (fa : ℝ) (a : ℝ))) := by
  refine ⟨?_, ?_, ?_⟩
  · intro h
    unfold adios2_bullwinkle_fraction
    rw [if_pos h]
  · intro e hne hem
    unfold adios2_bullwinkle_fraction
    rw [if_neg hne, hem]
  · intro fr fa a hres hasph hapi
    exact adios2_bullwinkle_fraction_eval lib rec fr fa a hres hasph hapi

/-- A crude record with high nickel/vanadium, a positive asphaltene
fraction and a recorded API. -/
def recC3 : ImportedRecord :=
  { baseRecord with
      nickel := some 10
      vanadium := some 10
      resins := some (1/100)
      asphaltenes := some (1/10)
      api := some 30 }

/-- A refined record with no measured resins, asphaltenes or API. -/
def recC3r : ImportedRecord :=
  { baseRecord with
      product_type := some "Refined" }

/-- A crude record with only a measured emulsification constant. -/
def recC3e : ImportedRecord :=
  { baseRecord with
      emuls_constant_max := some (7/10) }

/-- C3 witness: the Refined branch on a record with no measured resins,
asphaltenes or API, the emulsification-constant branch likewise, and the
amended derived branch on `recC3`. -/
theorem bullwinkle_two_stage_blend_witness :
    adios2_bullwinkle_fraction zeroEstLib recC3r = .ok 1 ∧
    adios2_bullwinkle_fraction zeroEstLib recC3e = .ok ((7/10 : ℚ) : ℝ) ∧
    adios2_bullwinkle_fraction zeroEstLib recC3 =
      .ok (bullwinkle_amended recC3 ((1/10 : ℚ) : ℝ) ((30 : ℚ) : ℝ)) :=
  ⟨(bullwinkle_two_stage_blend zeroEstLib recC3r).1 rfl,
   (bullwinkle_two_stage_blend zeroEstLib recC3e).2.1 (7/10)
     (by decide) rfl,
   (bullwinkle_two_stage_blend zeroEstLib recC3).2.2 (1/100) (1/10) 30
     rfl rfl rfl⟩

lemma bull_from_asph_tenth : bull_from_asph ((1 : ℝ)/10) = 0.303 := by
  unfold bull_from_asph
  have h10 : ((1 : ℝ)/10) = (10 : ℝ)⁻¹ := by norm_num
  rw [h10, Real.logb_inv, Real.logb_self_eq_one (by norm_num)]
  norm_num

/-- C3 counterexample: on `recC3` (nickel 10, vanadium 10, asphaltenes
0.1, API 30) the code takes the nickel/vanadium branch and blends the
estimate 0, while the claim's branch structure derives the estimate from
the positive asphaltene fraction (0.303 after clipping); the results
differ, so the claim omits a branch the code has. -/
theorem bullwinkle_claim_false_at_recC3 :
    adios2_bullwinkle_fraction zeroEstLib recC3 ≠
      .ok (bullwinkle_claimed recC3 ((1/10 : ℚ) : ℝ) ((30 : ℚ) : ℝ)) := by
  rw [adios2_bullwinkle_fraction_eval zeroEstLib recC3 (1/100) (1/10) 30
    rfl rfl rfl]
  intro h
  have h2 := Except.ok.inj h
  have hne : ("Crude" : String) ≠ "Refined" := by decide
  have hA : bullwinkle_amended recC3 ((1/10 : ℚ) : ℝ) ((30 : ℚ) : ℝ) =
      (0 + bull_adios1_value ((30 : ℚ) : ℝ)) / 2 := by
    norm_num [bullwinkle_amended, recC3, baseRecord, hne]
  have hB : bullwinkle_claimed recC3 ((1/10 : ℚ) : ℝ) ((30 : ℚ) : ℝ) =
      (0.303 + bull_adios1_value ((30 : ℚ) : ℝ)) / 2 := by
    norm_num [bullwinkle_claimed, recC3, baseRecord, hne, bull_from_asph_tenth]
  rw [hA, hB] at h2
  linarith [h2]

end OilLib
